import Mathlib

/-
Verification of the rackless device-enumeration subsystem.

The repository ships three C headers:
  src/pkg/devices/device_enumerator.h      (public enumeration entry points)
  src/pkg/audio/audiounit_devices.h        (enumeration + count entry points)
  src/standalone/devices/audiounit_devices.h
                                           (AudioDeviceInfo / MIDIDeviceInfo
                                            structs, full entry-point set)

The headers declare the Query Facade operations and the two canonical device
structs; the implementation behind them (Device Source Adapter, Device
Normalizer, Enumeration Cache, Serializer) is not part of the repository, so
those components are modelled here from the specification and each such
definition is marked "Modelled from the spec".  The struct layer
(CModel namespace) is taken directly from
src/standalone/devices/audiounit_devices.h.
-/

/- ---------------------------------------------------------------- -/
/- Basic vocabulary                                                  -/
/- ---------------------------------------------------------------- -/

/-- Direction of a device class: input or output. -/
inductive Direction where
  | input
  | output
deriving DecidableEq, Repr

/-- Modelled from the spec: a raw native audio device record as produced by
the Device Source Adapter (`listAudioDevices(direction)`), before
normalization.  The nominal sample rate is carried so that
`getDefaultSampleRate` can read the default output device's native rate. -/
structure RawAudioRecord where
  name : String
  uid : String
  inputChannels : Nat
  outputChannels : Nat
  nominalSampleRate : Rat
deriving DecidableEq, Repr

/-- Modelled from the spec: a raw native MIDI endpoint record as produced by
the Device Source Adapter (`listMIDIDevices(direction)`). -/
structure RawMIDIRecord where
  name : String
  uid : String
  isOnline : Bool
deriving DecidableEq, Repr

/-- Modelled from the spec: the error taxonomy visible at the enumeration
boundary.  `adapterUnavailable` is reported when the underlying platform
subsystem cannot be reached; it is never masked as an empty list. -/
inductive AdapterError where
  | adapterUnavailable
deriving DecidableEq, Repr

/-- Modelled from the spec: the Device Source Adapter capability set
\x7blistAudioDevices, listMIDIDevices, getDefaultAudioDeviceUid\x7d, polymorphic
over the host platform.  Every call is a synchronous read-only query that
either returns a finite snapshot or fails with `AdapterError`. -/
structure Adapter where
  listAudioDevices : Direction → Except AdapterError (List RawAudioRecord)
  listMIDIDevices : Direction → Except AdapterError (List RawMIDIRecord)
  getDefaultAudioDeviceUid : Direction → Except AdapterError (Option String)

/- ---------------------------------------------------------------- -/
/- Device Normalizer: the persistent uid -> stable id table           -/
/- ---------------------------------------------------------------- -/

/-- Modelled from the spec: the Normalizer's persistent `uid -> stable_id`
table together with its monotonic allocation counter.  The table lives for
the process lifetime and is never shrunk. -/
structure IdTable where
  assign : List (String × Nat)
  nextId : Nat
deriving DecidableEq, Repr

/-- The empty table; stable ids start at 1 (the spec's example assigns
`deviceId` 1 to the first device seen). -/
def IdTable.init : IdTable := ⟨[], 1⟩

/-- Look up the stable id previously assigned to `u`, if any. -/
def IdTable.lookup (t : IdTable) (u : String) : Option Nat :=
  match t.assign.find? (fun p => p.1 == u) with
  | some p => some p.2
  | none => none

/-- Modelled from the spec: reuse the existing stable id if the uid was seen
before, else allocate the next unused integer from the monotonic counter. -/
def IdTable.assignId (t : IdTable) (u : String) : Nat × IdTable :=
  match t.lookup u with
  | some i => (i, t)
  | none => (t.nextId, ⟨t.assign ++ [(u, t.nextId)], t.nextId + 1⟩)

/-- Run `assignId` over a list of raw records (with `f` projecting the uid),
threading the table left to right and pairing each record with its id. -/
def assignIds {α : Type} (f : α → String) (t : IdTable) :
    List α → List (α × Nat) × IdTable
  | [] => ([], t)
  | r :: rs =>
    match t.assignId (f r) with
    | (i, t1) =>
      match assignIds f t1 rs with
      | (ps, t2) => ((r, i) :: ps, t2)

/-- Well-formedness of an id table: uids are distinct, stable ids are
distinct, and every assigned id is below the allocation counter. -/
def IdTable.WF (t : IdTable) : Prop :=
  (t.assign.map Prod.fst).Nodup ∧ (t.assign.map Prod.snd).Nodup ∧
    ∀ p ∈ t.assign, p.2 < t.nextId

/- ---------------------------------------------------------------- -/
/- Canonical entities                                                -/
/- ---------------------------------------------------------------- -/

/-- Canonical audio device entity built by the Normalizer (the spec's
`DeviceInfo`); mirrors the field set of the C `AudioDeviceInfo` struct. -/
structure DeviceInfo where
  name : String
  uid : String
  deviceId : Nat
  isDefault : Bool
  inputChannels : Nat
  outputChannels : Nat
deriving DecidableEq, Repr

/-- Canonical MIDI endpoint entity built by the Normalizer; mirrors the field
set of the C `MIDIDeviceInfo` struct. -/
structure MIDIDeviceInfo where
  name : String
  uid : String
  endpointId : Nat
  isOnline : Bool
deriving DecidableEq, Repr

/-- Modelled from the spec: default resolution.  Walk the id-assigned records
and mark `isDefault` on the first record whose uid equals the
platform-reported default uid; once a default has been marked the pending
default is cleared, so at most one record is ever marked.  If the reported
uid is absent from the record set, no device is marked default. -/
def markDefaults (du : Option String) :
    List (RawAudioRecord × Nat) → List DeviceInfo
  | [] => []
  | (r, i) :: ps =>
    if du = some r.uid then
      ⟨r.name, r.uid, i, true, r.inputChannels, r.outputChannels⟩ ::
        markDefaults none ps
    else
      ⟨r.name, r.uid, i, false, r.inputChannels, r.outputChannels⟩ ::
        markDefaults du ps

/-- Modelled from the spec: the Device Normalizer for audio — assign stable
`deviceId`s from the persistent table, then resolve the default flag against
the platform-reported default uid. -/
def normalizeAudio (t : IdTable) (raws : List RawAudioRecord)
    (du : Option String) : List DeviceInfo × IdTable :=
  match assignIds RawAudioRecord.uid t raws with
  | (ps, t2) => (markDefaults du ps, t2)

/-- Modelled from the spec: the Device Normalizer for MIDI — assign stable
`endpointId`s from the persistent table. -/
def normalizeMIDI (t : IdTable) (raws : List RawMIDIRecord) :
    List MIDIDeviceInfo × IdTable :=
  match assignIds RawMIDIRecord.uid t raws with
  | (ps, t2) => (ps.map (fun p => ⟨p.1.name, p.1.uid, p.2, p.1.isOnline⟩), t2)

/- ---------------------------------------------------------------- -/
/- Serializer                                                        -/
/- ---------------------------------------------------------------- -/

/-- Quote a string field for the wire schema. -/
def quoteStr (s : String) : String := "\"" ++ s ++ "\""

/-- Render a boolean for the wire schema. -/
def boolText (b : Bool) : String := if b then "true" else "false"

/-- Modelled from the spec: serialize one audio device record into the
JSON-like wire schema of section 6. -/
def serializeAudioDevice (d : DeviceInfo) : String :=
  "\x7bname: " ++ quoteStr d.name ++ ", uid: " ++ quoteStr d.uid ++
    ", deviceId: " ++ toString d.deviceId ++
    ", isDefault: " ++ boolText d.isDefault ++
    ", inputChannels: " ++ toString d.inputChannels ++
    ", outputChannels: " ++ toString d.outputChannels ++ "\x7d"

/-- Modelled from the spec: serialize one MIDI endpoint record into the
JSON-like wire schema of section 6. -/
def serializeMIDIDevice (m : MIDIDeviceInfo) : String :=
  "\x7bname: " ++ quoteStr m.name ++ ", uid: " ++ quoteStr m.uid ++
    ", endpointId: " ++ toString m.endpointId ++
    ", isOnline: " ++ boolText m.isOnline ++ "\x7d"

/-- Render a sequence of records, preserving adapter order. -/
def serializeSeq {α : Type} (f : α → String) (l : List α) : String :=
  "[" ++ String.intercalate ", " (l.map f) ++ "]"

/-- Modelled from the spec: a single-class list response — the records under
the named collection `devices`.  The empty snapshot serializes to the
payload `\x7bdevices: []\x7d`. -/
def serializeAudioList (l : List DeviceInfo) : String :=
  "\x7bdevices: " ++ serializeSeq serializeAudioDevice l ++ "\x7d"

/-- Modelled from the spec: the MIDI single-class list response. -/
def serializeMIDIList (l : List MIDIDeviceInfo) : String :=
  "\x7bdevices: " ++ serializeSeq serializeMIDIDevice l ++ "\x7d"

/-- Modelled from the spec: the combined default-devices payload returned by
`getDefaultAudioDevices` (default audio input + output). -/
def serializeDefaults (li lo : List DeviceInfo) : String :=
  "\x7bdefaultInput: " ++ serializeSeq serializeAudioDevice li ++
    ", defaultOutput: " ++ serializeSeq serializeAudioDevice lo ++ "\x7d"

/-- Modelled from the spec: the four nested named collections of
`enumerateAllDevices`. -/
def serializeAll (ai ao : List DeviceInfo) (mi mo : List MIDIDeviceInfo) :
    String :=
  "\x7baudioInput: " ++ serializeSeq serializeAudioDevice ai ++
    ", audioOutput: " ++ serializeSeq serializeAudioDevice ao ++
    ", midiInput: " ++ serializeSeq serializeMIDIDevice mi ++
    ", midiOutput: " ++ serializeSeq serializeMIDIDevice mo ++ "\x7d"

/- ---------------------------------------------------------------- -/
/- Enumeration Cache                                                 -/
/- ---------------------------------------------------------------- -/

/-- Modelled from the spec: the Enumeration Cache — up to four snapshots
(one per class and direction) plus the process-wide stable-id tables (one id
space for audio `deviceId`s, one for MIDI `endpointId`s). -/
structure CacheState where
  audioTable : IdTable
  midiTable : IdTable
  audioIn : Option (List DeviceInfo)
  audioOut : Option (List DeviceInfo)
  midiIn : Option (List MIDIDeviceInfo)
  midiOut : Option (List MIDIDeviceInfo)
deriving DecidableEq, Repr

/-- The process-start state: no snapshot built yet, empty id tables. -/
def initState : CacheState :=
  ⟨IdTable.init, IdTable.init, none, none, none, none⟩

/-- The cached audio snapshot for a direction, if one has been built. -/
def CacheState.audioSnap (s : CacheState) (d : Direction) :
    Option (List DeviceInfo) :=
  match d with
  | .input => s.audioIn
  | .output => s.audioOut

/-- The cached MIDI snapshot for a direction, if one has been built. -/
def CacheState.midiSnap (s : CacheState) (d : Direction) :
    Option (List MIDIDeviceInfo) :=
  match d with
  | .input => s.midiIn
  | .output => s.midiOut

/-- Store a freshly built audio snapshot and the updated id table. -/
def storeAudio (s : CacheState) (d : Direction) (l : List DeviceInfo)
    (t : IdTable) : CacheState :=
  match d with
  | .input => { s with audioIn := some l, audioTable := t }
  | .output => { s with audioOut := some l, audioTable := t }

/-- Store a freshly built MIDI snapshot and the updated id table. -/
def storeMIDI (s : CacheState) (d : Direction) (l : List MIDIDeviceInfo)
    (t : IdTable) : CacheState :=
  match d with
  | .input => { s with midiIn := some l, midiTable := t }
  | .output => { s with midiOut := some l, midiTable := t }

/-- Modelled from the spec: `refresh(audio, direction)` — query the Adapter,
normalize, store the snapshot.  Adapter failure propagates, it is never
masked as an empty snapshot. -/
def refreshAudio (a : Adapter) (d : Direction) (s : CacheState) :
    Except AdapterError (List DeviceInfo × CacheState) :=
  match a.listAudioDevices d with
  | .error e => .error e
  | .ok raws =>
    match a.getDefaultAudioDeviceUid d with
    | .error e => .error e
    | .ok du =>
      match normalizeAudio s.audioTable raws du with
      | (devs, t2) => .ok (devs, storeAudio s d devs t2)

/-- Modelled from the spec: `refresh(midi, direction)`. -/
def refreshMIDI (a : Adapter) (d : Direction) (s : CacheState) :
    Except AdapterError (List MIDIDeviceInfo × CacheState) :=
  match a.listMIDIDevices d with
  | .error e => .error e
  | .ok raws =>
    match normalizeMIDI s.midiTable raws with
    | (devs, t2) => .ok (devs, storeMIDI s d devs t2)

/-- Modelled from the spec: `get(audio, direction)` — serve the cached
snapshot; refresh only on first touch (no snapshot ever built for the key). -/
def getAudioSnapshot (a : Adapter) (d : Direction) (s : CacheState) :
    Except AdapterError (List DeviceInfo × CacheState) :=
  match s.audioSnap d with
  | some l => .ok (l, s)
  | none => refreshAudio a d s

/-- Modelled from the spec: `get(midi, direction)`. -/
def getMIDISnapshot (a : Adapter) (d : Direction) (s : CacheState) :
    Except AdapterError (List MIDIDeviceInfo × CacheState) :=
  match s.midiSnap d with
  | some l => .ok (l, s)
  | none => refreshMIDI a d s

/- ---------------------------------------------------------------- -/
/- Query Facade: the public entry points of the headers               -/
/- ---------------------------------------------------------------- -/

/-- Map the headers' `isInput` flag to a direction. -/
def dirOf (isInput : Bool) : Direction :=
  if isInput then .input else .output

/-- Modelled from the spec: the audio `enumerate(class, direction)` entry
point — serialize the served snapshot. -/
def enumerateAudioDevices (a : Adapter) (isInput : Bool) (s : CacheState) :
    Except AdapterError (String × CacheState) :=
  match getAudioSnapshot a (dirOf isInput) s with
  | .error e => .error e
  | .ok (l, s2) => .ok (serializeAudioList l, s2)

/-- `enumerateAudioInputDevices()` of the headers. -/
def enumerateAudioInputDevices (a : Adapter) (s : CacheState) :
    Except AdapterError (String × CacheState) :=
  enumerateAudioDevices a true s

/-- `enumerateAudioOutputDevices()` of the headers. -/
def enumerateAudioOutputDevices (a : Adapter) (s : CacheState) :
    Except AdapterError (String × CacheState) :=
  enumerateAudioDevices a false s

/-- Modelled from the spec: the MIDI `enumerate(class, direction)` entry
point. -/
def enumerateMIDIDevices (a : Adapter) (isInput : Bool) (s : CacheState) :
    Except AdapterError (String × CacheState) :=
  match getMIDISnapshot a (dirOf isInput) s with
  | .error e => .error e
  | .ok (l, s2) => .ok (serializeMIDIList l, s2)

/-- `enumerateMIDIInputDevices()` of the headers. -/
def enumerateMIDIInputDevices (a : Adapter) (s : CacheState) :
    Except AdapterError (String × CacheState) :=
  enumerateMIDIDevices a true s

/-- `enumerateMIDIOutputDevices()` of the headers. -/
def enumerateMIDIOutputDevices (a : Adapter) (s : CacheState) :
    Except AdapterError (String × CacheState) :=
  enumerateMIDIDevices a false s

/-- `getAudioDeviceCount(isInput)` of the headers: the length of the served
snapshot, as a C `int`.  Failure is an explicit error, never a plain zero. -/
def getAudioDeviceCount (a : Adapter) (isInput : Bool) (s : CacheState) :
    Except AdapterError (Int × CacheState) :=
  match getAudioSnapshot a (dirOf isInput) s with
  | .error e => .error e
  | .ok (l, s2) => .ok ((l.length : Int), s2)

/-- `getMIDIDeviceCount(isInput)` of the headers. -/
def getMIDIDeviceCount (a : Adapter) (isInput : Bool) (s : CacheState) :
    Except AdapterError (Int × CacheState) :=
  match getMIDISnapshot a (dirOf isInput) s with
  | .error e => .error e
  | .ok (l, s2) => .ok ((l.length : Int), s2)

/-- `getDefaultAudioDevices()` of the headers: the combined default audio
input + output view, serialized from the devices flagged default in the two
served snapshots. -/
def getDefaultAudioDevices (a : Adapter) (s : CacheState) :
    Except AdapterError (String × CacheState) :=
  match getAudioSnapshot a .input s with
  | .error e => .error e
  | .ok (li, s1) =>
    match getAudioSnapshot a .output s1 with
    | .error e => .error e
    | .ok (lo, s2) =>
      .ok (serializeDefaults (li.filter (fun d => d.isDefault))
        (lo.filter (fun d => d.isDefault)), s2)

/-- `enumerateAllDevices()` of the headers: the four class snapshots nested
under `audioInput`, `audioOutput`, `midiInput`, `midiOutput`. -/
def enumerateAllDevices (a : Adapter) (s : CacheState) :
    Except AdapterError (String × CacheState) :=
  match getAudioSnapshot a .input s with
  | .error e => .error e
  | .ok (ai, s1) =>
    match getAudioSnapshot a .output s1 with
    | .error e => .error e
    | .ok (ao, s2) =>
      match getMIDISnapshot a .input s2 with
      | .error e => .error e
      | .ok (mi, s3) =>
        match getMIDISnapshot a .output s3 with
        | .error e => .error e
        | .ok (mo, s4) => .ok (serializeAll ai ao mi mo, s4)

/-- `getDefaultSampleRate()` of the headers.  Modelled from the spec: read
the native nominal rate of the current default output device (the
platform-reported default uid cross-referenced against the output device
list); 0 when no default output device is resolvable. -/
def getDefaultSampleRate (a : Adapter) : Rat :=
  match a.getDefaultAudioDeviceUid .output with
  | .error _ => 0
  | .ok none => 0
  | .ok (some u) =>
    match a.listAudioDevices .output with
    | .error _ => 0
    | .ok raws =>
      match raws.find? (fun r => r.uid == u) with
      | some r => r.nominalSampleRate
      | none => 0

/- ---------------------------------------------------------------- -/
/- The C struct layer of src/standalone/devices/audiounit_devices.h  -/
/- ---------------------------------------------------------------- -/

namespace CModel

/-- A fixed 256-byte C character buffer holding a NUL-terminated string, as
declared by `char name[256]` / `char uid[256]` in
src/standalone/devices/audiounit_devices.h.  `terminated` is the C-string
convention: the buffer contains a NUL byte. -/
structure CString256 where
  bytes : List Nat
  size_eq : bytes.length = 256
  terminated : 0 ∈ bytes

/-- The character content of the buffer read as a C string: every byte up to
(excluding) the first NUL. -/
def CString256.toStr (s : CString256) : List Nat :=
  s.bytes.takeWhile (fun b => b != 0)

/-- The `AudioDeviceInfo` struct of
src/standalone/devices/audiounit_devices.h, field for field (C `int` fields
modelled as `Int`). -/
structure AudioDeviceInfo where
  name : CString256
  uid : CString256
  deviceId : Int
  isDefault : Int
  inputChannels : Int
  outputChannels : Int

/-- The `MIDIDeviceInfo` struct of
src/standalone/devices/audiounit_devices.h, field for field. -/
structure MIDIDeviceInfo where
  name : CString256
  uid : CString256
  endpointId : Int
  isOnline : Int

end CModel

/- ---------------------------------------------------------------- -/
/- Lemmas about the stable-id table                                  -/
/- ---------------------------------------------------------------- -/

theorem find?_append_of_none {α : Type} {p : α → Bool} {l1 l2 : List α}
    (h : l1.find? p = none) : (l1 ++ l2).find? p = l2.find? p := by
  rw [List.find?_append, h, Option.none_or]

theorem find?_append_of_some {α : Type} {p : α → Bool} {l1 l2 : List α}
    {x : α} (h : l1.find? p = some x) : (l1 ++ l2).find? p = some x := by
  rw [List.find?_append, h]
  rfl

theorem lookup_mem {t : IdTable} {u : String} {i : Nat}
    (h : t.lookup u = some i) : (u, i) ∈ t.assign := by
  unfold IdTable.lookup at h
  cases hf : t.assign.find? (fun p => p.1 == u) with
  | none => rw [hf] at h; exact absurd h (by simp)
  | some q =>
    rw [hf] at h
    have hq : q ∈ t.assign := List.mem_of_find?_eq_some hf
    have hp := List.find?_some hf
    have h1 : q.1 = u := by simpa using hp
    have h2 : q.2 = i := by simpa using h
    have hqe : q = (u, i) := by
      cases q with
      | mk a b => simp_all
    rw [hqe] at hq
    exact hq

theorem lookup_none_keys {t : IdTable} {u : String}
    (h : t.lookup u = none) : u ∉ t.assign.map Prod.fst := by
  unfold IdTable.lookup at h
  cases hf : t.assign.find? (fun p => p.1 == u) with
  | some q => rw [hf] at h; exact absurd h (by simp)
  | none =>
    intro hmem
    rcases List.mem_map.mp hmem with ⟨p, hp, hfst⟩
    have := List.find?_eq_none.mp hf p hp
    simp [hfst] at this

theorem lookup_append_fresh {t : IdTable} {u : String} (i n : Nat)
    (h : t.lookup u = none) :
    IdTable.lookup ⟨t.assign ++ [(u, i)], n⟩ u = some i := by
  unfold IdTable.lookup at h ⊢
  cases hf : t.assign.find? (fun p => p.1 == u) with
  | some q => rw [hf] at h; exact absurd h (by simp)
  | none =>
    have hap : (t.assign ++ [(u, i)]).find? (fun p => p.1 == u) =
        [(u, i)].find? (fun p => p.1 == u) := find?_append_of_none hf
    simp only [hap]
    simp [List.find?]

theorem assignId_of_some {t : IdTable} {u : String} {i : Nat}
    (h : t.lookup u = some i) : t.assignId u = (i, t) := by
  unfold IdTable.assignId
  rw [h]

theorem assignId_of_none {t : IdTable} {u : String}
    (h : t.lookup u = none) :
    t.assignId u = (t.nextId, ⟨t.assign ++ [(u, t.nextId)], t.nextId + 1⟩) := by
  unfold IdTable.assignId
  rw [h]

theorem assignId_preserves {t : IdTable} {v : String} {i : Nat}
    (u : String) (h : t.lookup v = some i) :
    ((t.assignId u).2).lookup v = some i := by
  cases hu : t.lookup u with
  | some j => rw [assignId_of_some hu]; exact h
  | none =>
    rw [assignId_of_none hu]
    unfold IdTable.lookup at h ⊢
    cases hf : t.assign.find? (fun p => p.1 == v) with
    | none => rw [hf] at h; exact absurd h (by simp)
    | some q =>
      rw [hf] at h
      rw [find?_append_of_some hf]
      exact h

theorem assignId_lookup_self (t : IdTable) (u : String) :
    ((t.assignId u).2).lookup u = some (t.assignId u).1 := by
  cases hu : t.lookup u with
  | some j => rw [assignId_of_some hu]; exact hu
  | none =>
    rw [assignId_of_none hu]
    exact lookup_append_fresh t.nextId (t.nextId + 1) hu

theorem assignIds_nil {α : Type} (f : α → String) (t : IdTable) :
    assignIds f t [] = ([], t) := rfl

theorem assignIds_cons {α : Type} (f : α → String) (t : IdTable) (r : α)
    (rs : List α) :
    assignIds f t (r :: rs) =
      ((r, (t.assignId (f r)).1) :: (assignIds f (t.assignId (f r)).2 rs).1,
        (assignIds f (t.assignId (f r)).2 rs).2) := rfl

theorem assignIds_preserves {α : Type} (f : α → String) {t : IdTable}
    {v : String} {i : Nat} (l : List α) (h : t.lookup v = some i) :
    ((assignIds f t l).2).lookup v = some i := by
  induction l generalizing t with
  | nil => exact h
  | cons r rs ih =>
    rw [assignIds_cons]
    exact ih (assignId_preserves (f r) h)

theorem assignIds_mem_lookup {α : Type} (f : α → String) {t : IdTable}
    {l : List α} {r : α} {i : Nat} (h : (r, i) ∈ (assignIds f t l).1) :
    ((assignIds f t l).2).lookup (f r) = some i := by
  induction l generalizing t with
  | nil => rw [assignIds_nil] at h; exact absurd h (by simp)
  | cons x rs ih =>
    rw [assignIds_cons] at h ⊢
    rcases List.mem_cons.mp h with hh | ht
    · injection hh with h1 h2
      subst h1
      have hs := assignId_lookup_self t (f r)
      rw [← h2] at hs
      exact assignIds_preserves f rs hs
    · exact ih ht

theorem assignIds_mem_of_lookup {α : Type} (f : α → String) {t : IdTable}
    {l : List α} {r : α} {i : Nat} (hr : r ∈ l)
    (h : t.lookup (f r) = some i) : (r, i) ∈ (assignIds f t l).1 := by
  induction l generalizing t with
  | nil => exact absurd hr (by simp)
  | cons x rs ih =>
    rw [assignIds_cons]
    rcases List.mem_cons.mp hr with hh | ht
    · subst hh
      rw [assignId_of_some h]
      exact List.mem_cons_self _ _
    · exact List.mem_cons_of_mem _ (ih ht (assignId_preserves (f x) h))

theorem assignIds_idem {α : Type} (f : α → String) (t : IdTable)
    (l : List α) : assignIds f ((assignIds f t l).2) l = assignIds f t l := by
  induction l generalizing t with
  | nil => rfl
  | cons r rs ih =>
    rw [assignIds_cons, assignIds_cons]
    have hself : ((assignIds f (t.assignId (f r)).2 rs).2).lookup (f r) =
        some (t.assignId (f r)).1 :=
      assignIds_preserves f rs (assignId_lookup_self t (f r))
    rw [assignId_of_some hself]
    rw [ih (t.assignId (f r)).2]

theorem assignIds_fst {α : Type} (f : α → String) (t : IdTable)
    (l : List α) : (assignIds f t l).1.map Prod.fst = l := by
  induction l generalizing t with
  | nil => rfl
  | cons r rs ih =>
    rw [assignIds_cons]
    simp only [List.map_cons]
    rw [ih]

theorem assignId_WF {t : IdTable} (u : String) (h : t.WF) :
    ((t.assignId u).2).WF := by
  cases hu : t.lookup u with
  | some j => rw [assignId_of_some hu]; exact h
  | none =>
    rw [assignId_of_none hu]
    obtain ⟨hk, hv, hb⟩ := h
    refine ⟨?_, ?_, ?_⟩
    · simp only [List.map_append, List.map_cons, List.map_nil]
      rw [List.nodup_append]
      refine ⟨hk, List.nodup_singleton u, ?_⟩
      intro x hx hy
      have hy2 : x = u := by simpa using hy
      subst hy2
      exact lookup_none_keys hu hx
    · simp only [List.map_append, List.map_cons, List.map_nil]
      rw [List.nodup_append]
      refine ⟨hv, List.nodup_singleton _, ?_⟩
      intro x hx hy
      have hy2 : x = t.nextId := by simpa using hy
      subst hy2
      rcases List.mem_map.mp hx with ⟨p, hp, hsnd⟩
      have := hb p hp
      omega
    · intro p hp
      rcases List.mem_append.mp hp with hold | hnew
      · exact Nat.lt_succ_of_lt (hb p hold)
      · have : p = (u, t.nextId) := by simpa using hnew
        subst this
        exact Nat.lt_succ_self _

theorem assignIds_WF {α : Type} (f : α → String) {t : IdTable}
    (l : List α) (h : t.WF) : ((assignIds f t l).2).WF := by
  induction l generalizing t with
  | nil => exact h
  | cons r rs ih =>
    rw [assignIds_cons]
    exact ih (assignId_WF (f r) h)

theorem lookup_inj {t : IdTable} {u1 u2 : String} {i : Nat} (h : t.WF)
    (h1 : t.lookup u1 = some i) (h2 : t.lookup u2 = some i) : u1 = u2 := by
  have m1 := lookup_mem h1
  have m2 := lookup_mem h2
  have := List.inj_on_of_nodup_map h.2.1 m1 m2 rfl
  exact congrArg Prod.fst this

theorem ids_nodup_of_uids_nodup {α : Type} (f : α → String) {t : IdTable}
    (h : t.WF) : ∀ (P : List (α × Nat)),
    (∀ p ∈ P, t.lookup (f p.1) = some p.2) →
    (P.map (fun p => f p.1)).Nodup → (P.map Prod.snd).Nodup := by
  intro P
  induction P with
  | nil => intro _ _; exact List.nodup_nil
  | cons q Q ih =>
    intro hlk hnd
    simp only [List.map_cons, List.nodup_cons] at hnd ⊢
    refine ⟨?_, ih (fun p hp => hlk p (List.mem_cons_of_mem _ hp)) hnd.2⟩
    intro hmem
    rcases List.mem_map.mp hmem with ⟨p, hp, hsnd⟩
    have hq := hlk q (List.mem_cons_self _ _)
    have hpl := hlk p (List.mem_cons_of_mem _ hp)
    rw [hsnd] at hpl
    have : f p.1 = f q.1 := lookup_inj h hpl hq
    exact hnd.1 (this ▸ List.mem_map_of_mem (fun p => f p.1) hp)

/- ---------------------------------------------------------------- -/
/- Lemmas about default resolution and normalization                 -/
/- ---------------------------------------------------------------- -/

theorem markDefaults_none_filter (ps : List (RawAudioRecord × Nat)) :
    (markDefaults none ps).filter (fun d => d.isDefault) = [] := by
  induction ps with
  | nil => rfl
  | cons q qs ih =>
    cases q with
    | mk r i =>
      simp only [markDefaults, reduceCtorEq, if_false, List.filter_cons]
      simpa using ih

theorem markDefaults_filter_le_one (du : Option String)
    (ps : List (RawAudioRecord × Nat)) :
    ((markDefaults du ps).filter (fun d => d.isDefault)).length ≤ 1 := by
  induction ps generalizing du with
  | nil => simp [markDefaults]
  | cons q qs ih =>
    cases q with
    | mk r i =>
      by_cases hdu : du = some r.uid
      · simp only [markDefaults, hdu, if_true, List.filter_cons]
        simp only [markDefaults_none_filter]
        simp
      · simp only [markDefaults, hdu, if_false, List.filter_cons]
        simpa using ih du

theorem markDefaults_absent_filter (u : String)
    (ps : List (RawAudioRecord × Nat))
    (h : u ∉ ps.map (fun p => p.1.uid)) :
    (markDefaults (some u) ps).filter (fun d => d.isDefault) = [] := by
  induction ps with
  | nil => rfl
  | cons q qs ih =>
    cases q with
    | mk r i =>
      simp only [List.map_cons, List.mem_cons] at h
      push_neg at h
      have hne : (some u : Option String) ≠ some r.uid := by
        intro hc
        exact h.1 (Option.some.inj hc)
      simp only [markDefaults, hne, if_false, List.filter_cons]
      simpa using ih h.2

theorem markDefaults_map_deviceId (du : Option String)
    (ps : List (RawAudioRecord × Nat)) :
    (markDefaults du ps).map DeviceInfo.deviceId = ps.map Prod.snd := by
  induction ps generalizing du with
  | nil => rfl
  | cons q qs ih =>
    cases q with
    | mk r i =>
      by_cases hdu : du = some r.uid
      · simp only [markDefaults, hdu, if_true, List.map_cons]
        rw [ih none]
      · simp only [markDefaults, hdu, if_false, List.map_cons]
        rw [ih du]

theorem normalizeAudio_filter_le_one (t : IdTable)
    (raws : List RawAudioRecord) (du : Option String) :
    (((normalizeAudio t raws du).1).filter (fun d => d.isDefault)).length ≤ 1 := by
  unfold normalizeAudio
  exact markDefaults_filter_le_one du (assignIds RawAudioRecord.uid t raws).1

theorem normalizeAudio_absent (t : IdTable) (raws : List RawAudioRecord)
    (u : String) (h : u ∉ raws.map RawAudioRecord.uid) :
    ((normalizeAudio t raws (some u)).1).filter (fun d => d.isDefault) = [] := by
  unfold normalizeAudio
  apply markDefaults_absent_filter
  have hfst := assignIds_fst RawAudioRecord.uid t raws
  have hmap := congrArg (List.map RawAudioRecord.uid) hfst
  rw [List.map_map] at hmap
  intro hc
  apply h
  rw [← hmap]
  exact hc

theorem normalizeMIDI_mem_lookup {t : IdTable} {raws : List RawMIDIRecord}
    {m : MIDIDeviceInfo} (h : m ∈ (normalizeMIDI t raws).1) :
    ((normalizeMIDI t raws).2).lookup m.uid = some m.endpointId := by
  unfold normalizeMIDI at h ⊢
  rcases List.mem_map.mp h with ⟨p, hp, he⟩
  have := assignIds_mem_lookup RawMIDIRecord.uid (t := t) (l := raws)
    (r := p.1) (i := p.2) (by simpa using hp)
  subst he
  simpa using this

theorem normalizeMIDI_preserves {t : IdTable} {u : String} {i : Nat}
    (raws : List RawMIDIRecord) (h : t.lookup u = some i) :
    ((normalizeMIDI t raws).2).lookup u = some i := by
  unfold normalizeMIDI
  exact assignIds_preserves RawMIDIRecord.uid raws h

theorem normalizeMIDI_mem_of_lookup {t : IdTable} {raws : List RawMIDIRecord}
    {r : RawMIDIRecord} {i : Nat} (hr : r ∈ raws)
    (h : t.lookup r.uid = some i) :
    MIDIDeviceInfo.mk r.name r.uid i r.isOnline ∈ (normalizeMIDI t raws).1 := by
  unfold normalizeMIDI
  have := assignIds_mem_of_lookup RawMIDIRecord.uid hr h
  exact List.mem_map_of_mem _ this

theorem normalizeAudio_idem (t : IdTable) (raws : List RawAudioRecord)
    (du : Option String) :
    normalizeAudio (normalizeAudio t raws du).2 raws du =
      normalizeAudio t raws du := by
  unfold normalizeAudio
  rw [assignIds_idem]

theorem normalizeMIDI_idem (t : IdTable) (raws : List RawMIDIRecord) :
    normalizeMIDI (normalizeMIDI t raws).2 raws = normalizeMIDI t raws := by
  unfold normalizeMIDI
  rw [assignIds_idem]

theorem assignIds_pair_nodup {α : Type} (f : α → String) {t : IdTable}
    (h : t.WF) (lin lout : List α)
    (hnd : ((lin ++ lout).map f).Nodup) :
    (((assignIds f t lin).1 ++
      (assignIds f (assignIds f t lin).2 lout).1).map Prod.snd).Nodup := by
  have hT2 : ((assignIds f (assignIds f t lin).2 lout).2).WF :=
    assignIds_WF f lout (assignIds_WF f lin h)
  apply ids_nodup_of_uids_nodup f hT2
  · intro p hp
    rcases List.mem_append.mp hp with h1 | h2
    · have hlk := assignIds_mem_lookup f (t := t) (l := lin)
        (r := p.1) (i := p.2) (by simpa using h1)
      exact assignIds_preserves f lout hlk
    · exact assignIds_mem_lookup f (by simpa using h2)
  · have e1 := congrArg (List.map f) (assignIds_fst f t lin)
    have e2 := congrArg (List.map f)
      (assignIds_fst f (assignIds f t lin).2 lout)
    rw [List.map_map] at e1 e2
    rw [List.map_append]
    rw [show List.map (fun (p : α × Nat) => f p.1) (assignIds f t lin).1 =
      List.map f lin from e1]
    rw [show List.map (fun (p : α × Nat) => f p.1)
      (assignIds f (assignIds f t lin).2 lout).1 = List.map f lout from e2]
    rw [← List.map_append]
    exact hnd

theorem normalizeAudio_map_deviceId (t : IdTable)
    (raws : List RawAudioRecord) (du : Option String) :
    ((normalizeAudio t raws du).1).map DeviceInfo.deviceId =
      (assignIds RawAudioRecord.uid t raws).1.map Prod.snd := by
  unfold normalizeAudio
  exact markDefaults_map_deviceId du _

theorem initTable_WF : IdTable.init.WF := by
  refine ⟨List.nodup_nil, List.nodup_nil, ?_⟩
  intro p hp
  exact absurd hp (by simp [IdTable.init])

/- ---------------------------------------------------------------- -/
/- Lemmas about the Enumeration Cache                                -/
/- ---------------------------------------------------------------- -/

theorem storeAudio_snap_self (s : CacheState) (d : Direction)
    (l : List DeviceInfo) (t : IdTable) :
    (storeAudio s d l t).audioSnap d = some l := by
  cases d <;> rfl

theorem storeMIDI_snap_self (s : CacheState) (d : Direction)
    (l : List MIDIDeviceInfo) (t : IdTable) :
    (storeMIDI s d l t).midiSnap d = some l := by
  cases d <;> rfl

theorem getAudioSnapshot_cached {a : Adapter} {d : Direction}
    {s : CacheState} {l : List DeviceInfo} (hs : s.audioSnap d = some l) :
    getAudioSnapshot a d s = .ok (l, s) := by
  unfold getAudioSnapshot
  rw [hs]

theorem getMIDISnapshot_cached {a : Adapter} {d : Direction}
    {s : CacheState} {l : List MIDIDeviceInfo} (hs : s.midiSnap d = some l) :
    getMIDISnapshot a d s = .ok (l, s) := by
  unfold getMIDISnapshot
  rw [hs]

theorem getAudioSnapshot_uncached {a : Adapter} {d : Direction}
    {s : CacheState} {raws : List RawAudioRecord} {du : Option String}
    (hs : s.audioSnap d = none) (hl : a.listAudioDevices d = .ok raws)
    (hd : a.getDefaultAudioDeviceUid d = .ok du) :
    getAudioSnapshot a d s =
      .ok ((normalizeAudio s.audioTable raws du).1,
        storeAudio s d (normalizeAudio s.audioTable raws du).1
          (normalizeAudio s.audioTable raws du).2) := by
  unfold getAudioSnapshot refreshAudio
  rw [hs, hl, hd]

theorem getMIDISnapshot_uncached {a : Adapter} {d : Direction}
    {s : CacheState} {raws : List RawMIDIRecord}
    (hs : s.midiSnap d = none) (hl : a.listMIDIDevices d = .ok raws) :
    getMIDISnapshot a d s =
      .ok ((normalizeMIDI s.midiTable raws).1,
        storeMIDI s d (normalizeMIDI s.midiTable raws).1
          (normalizeMIDI s.midiTable raws).2) := by
  unfold getMIDISnapshot refreshMIDI
  rw [hs, hl]

theorem getAudioSnapshot_err_list {a : Adapter} {d : Direction}
    {s : CacheState} {e : AdapterError} (hs : s.audioSnap d = none)
    (hl : a.listAudioDevices d = .error e) :
    getAudioSnapshot a d s = .error e := by
  unfold getAudioSnapshot refreshAudio
  rw [hs, hl]

theorem getMIDISnapshot_err_list {a : Adapter} {d : Direction}
    {s : CacheState} {e : AdapterError} (hs : s.midiSnap d = none)
    (hl : a.listMIDIDevices d = .error e) :
    getMIDISnapshot a d s = .error e := by
  unfold getMIDISnapshot refreshMIDI
  rw [hs, hl]

theorem getAudioSnapshot_stable {a : Adapter} {d : Direction}
    {s s2 : CacheState} {l : List DeviceInfo}
    (h : getAudioSnapshot a d s = .ok (l, s2)) :
    s2.audioSnap d = some l := by
  unfold getAudioSnapshot refreshAudio at h
  cases hs : s.audioSnap d with
  | some l0 =>
    rw [hs] at h
    have h1 : l0 = l ∧ s = s2 := by
      constructor
      · exact congrArg Prod.fst (Except.ok.inj h)
      · exact congrArg Prod.snd (Except.ok.inj h)
    rw [← h1.2, hs, h1.1]
  | none =>
    rw [hs] at h
    cases hl : a.listAudioDevices d with
    | error e => rw [hl] at h; exact absurd h (by simp)
    | ok raws =>
      rw [hl] at h
      cases hd : a.getDefaultAudioDeviceUid d with
      | error e => rw [hd] at h; exact absurd h (by simp)
      | ok du =>
        rw [hd] at h
        have h1 := Except.ok.inj h
        have hfst : (normalizeAudio s.audioTable raws du).1 = l :=
          congrArg Prod.fst h1
        have hsnd := congrArg Prod.snd h1
        simp only at hfst hsnd
        rw [← hsnd, ← hfst]
        exact storeAudio_snap_self _ _ _ _

theorem getMIDISnapshot_stable {a : Adapter} {d : Direction}
    {s s2 : CacheState} {l : List MIDIDeviceInfo}
    (h : getMIDISnapshot a d s = .ok (l, s2)) :
    s2.midiSnap d = some l := by
  unfold getMIDISnapshot refreshMIDI at h
  cases hs : s.midiSnap d with
  | some l0 =>
    rw [hs] at h
    have h1 : l0 = l ∧ s = s2 := by
      constructor
      · exact congrArg Prod.fst (Except.ok.inj h)
      · exact congrArg Prod.snd (Except.ok.inj h)
    rw [← h1.2, hs, h1.1]
  | none =>
    rw [hs] at h
    cases hl : a.listMIDIDevices d with
    | error e => rw [hl] at h; exact absurd h (by simp)
    | ok raws =>
      rw [hl] at h
      have h1 := Except.ok.inj h
      have hfst : (normalizeMIDI s.midiTable raws).1 = l :=
        congrArg Prod.fst h1
      have hsnd := congrArg Prod.snd h1
      simp only at hfst hsnd
      rw [← hsnd, ← hfst]
      exact storeMIDI_snap_self _ _ _ _

/- ---------------------------------------------------------------- -/
/- Concrete platform adapters used to instantiate the theorems       -/
/- ---------------------------------------------------------------- -/

/-- A healthy one-device-per-class platform: one input interface, one output
interface (uid "builtin-out", native rate 48000), one MIDI source. -/
def goodAdapter : Adapter where
  listAudioDevices := fun d =>
    match d with
    | .input => .ok [⟨"Mic In", "mic-1", 2, 0, 44100⟩]
    | .output => .ok [⟨"Builtin Out", "builtin-out", 0, 2, 48000⟩]
  listMIDIDevices := fun d =>
    match d with
    | .input => .ok [⟨"Keys", "midi-keys", true⟩]
    | .output => .ok []
  getDefaultAudioDeviceUid := fun d =>
    match d with
    | .input => .ok none
    | .output => .ok (some "builtin-out")

/-- A reachable platform with no devices at all. -/
def emptyAdapter : Adapter where
  listAudioDevices := fun _ => .ok []
  listMIDIDevices := fun _ => .ok []
  getDefaultAudioDeviceUid := fun _ => .ok none

/-- A platform whose subsystem cannot be reached: every query fails. -/
def brokenAdapter : Adapter where
  listAudioDevices := fun _ => .error .adapterUnavailable
  listMIDIDevices := fun _ => .error .adapterUnavailable
  getDefaultAudioDeviceUid := fun _ => .error .adapterUnavailable

/-- The audio count returned by `goodAdapter` on first touch (value and
resulting cache state). -/
def gaCountPair : Int × CacheState :=
  match getAudioDeviceCount goodAdapter true initState with
  | .ok r => r
  | .error _ => (-1, initState)

/-- The MIDI count returned by `goodAdapter` on first touch. -/
def gmCountPair : Int × CacheState :=
  match getMIDIDeviceCount goodAdapter true initState with
  | .ok r => r
  | .error _ => (-1, initState)

/-- First audio enumeration against `goodAdapter` (payload and state). -/
def gaEnumPair : String × CacheState :=
  match enumerateAudioDevices goodAdapter true initState with
  | .ok r => r
  | .error _ => ("", initState)

/-- First MIDI enumeration against `goodAdapter` (payload and state). -/
def gmEnumPair : String × CacheState :=
  match enumerateMIDIDevices goodAdapter true initState with
  | .ok r => r
  | .error _ => ("", initState)

/-- First combined default-device query against `goodAdapter`. -/
def gdPair : String × CacheState :=
  match getDefaultAudioDevices goodAdapter initState with
  | .ok r => r
  | .error _ => ("", initState)

/-- First `enumerateAllDevices` call against `goodAdapter`. -/
def gAllPair : String × CacheState :=
  match enumerateAllDevices goodAdapter initState with
  | .ok r => r
  | .error _ => ("", initState)

/- ---------------------------------------------------------------- -/
/- Claim theorems                                                    -/
/- ---------------------------------------------------------------- -/

/-- C1: for every (class, direction) and every cache state, the count entry
point (`getAudioDeviceCount` / `getMIDIDeviceCount`) and the enumerate entry
point are two views of the same served snapshot: the count is exactly the
length of the record collection that enumerate serializes, and on success the
count is never negative. -/
theorem count_matches_enumerate (a : Adapter) (i : Bool) (s : CacheState) :
    enumerateAudioDevices a i s =
      (getAudioSnapshot a (dirOf i) s).map
        (fun r => (serializeAudioList r.1, r.2)) ∧
    getAudioDeviceCount a i s =
      (getAudioSnapshot a (dirOf i) s).map
        (fun r => ((r.1.length : Int), r.2)) ∧
    (∀ n s2, getAudioDeviceCount a i s = .ok (n, s2) → 0 ≤ n) ∧
    enumerateMIDIDevices a i s =
      (getMIDISnapshot a (dirOf i) s).map
        (fun r => (serializeMIDIList r.1, r.2)) ∧
    getMIDIDeviceCount a i s =
      (getMIDISnapshot a (dirOf i) s).map
        (fun r => ((r.1.length : Int), r.2)) ∧
    (∀ n s2, getMIDIDeviceCount a i s = .ok (n, s2) → 0 ≤ n) := by
  refine ⟨?_, ?_, ?_, ?_, ?_, ?_⟩
  · unfold enumerateAudioDevices
    cases hg : getAudioSnapshot a (dirOf i) s with
    | error e => simp [Except.map]
    | ok r => simp [Except.map]
  · unfold getAudioDeviceCount
    cases hg : getAudioSnapshot a (dirOf i) s with
    | error e => simp [Except.map]
    | ok r => simp [Except.map]
  · intro n s2 h
    unfold getAudioDeviceCount at h
    cases hg : getAudioSnapshot a (dirOf i) s with
    | error e => rw [hg] at h; exact absurd h (by simp)
    | ok r =>
      rw [hg] at h
      have : ((r.1.length : Int), r.2) = (n, s2) := by
        simpa using h
      have hn : (r.1.length : Int) = n := congrArg Prod.fst this
      rw [← hn]
      exact Int.ofNat_nonneg _
  · unfold enumerateMIDIDevices
    cases hg : getMIDISnapshot a (dirOf i) s with
    | error e => simp [Except.map]
    | ok r => simp [Except.map]
  · unfold getMIDIDeviceCount
    cases hg : getMIDISnapshot a (dirOf i) s with
    | error e => simp [Except.map]
    | ok r => simp [Except.map]
  · intro n s2 h
    unfold getMIDIDeviceCount at h
    cases hg : getMIDISnapshot a (dirOf i) s with
    | error e => rw [hg] at h; exact absurd h (by simp)
    | ok r =>
      rw [hg] at h
      have : ((r.1.length : Int), r.2) = (n, s2) := by
        simpa using h
      have hn : (r.1.length : Int) = n := congrArg Prod.fst this
      rw [← hn]
      exact Int.ofNat_nonneg _

/-- Witness for C1 at a concrete platform: the first-touch counts returned by
`goodAdapter` are non-negative. -/
theorem count_matches_enumerate_witness :
    0 ≤ gaCountPair.1 ∧ 0 ≤ gmCountPair.1 :=
  ⟨(count_matches_enumerate goodAdapter true initState).2.2.1
      gaCountPair.1 gaCountPair.2 rfl,
    (count_matches_enumerate goodAdapter true initState).2.2.2.2.2
      gmCountPair.1 gmCountPair.2 rfl⟩

/-- C2: in every normalized snapshot at most one device carries
`isDefault = true` per (class, direction); when the platform-reported default
uid is absent from the enumerated device set, no device is marked default;
and the payload of `getDefaultAudioDevices()` is built from exactly those
(at most one per direction) default-flagged devices. -/
theorem default_flag_unique :
    (∀ (t : IdTable) (raws : List RawAudioRecord) (du : Option String),
      (((normalizeAudio t raws du).1).filter
        (fun d => d.isDefault)).length ≤ 1) ∧
    (∀ (t : IdTable) (raws : List RawAudioRecord) (u : String),
      u ∉ raws.map RawAudioRecord.uid →
      ((normalizeAudio t raws (some u)).1).filter
        (fun d => d.isDefault) = []) ∧
    (∀ (a : Adapter) (lin lout : List RawAudioRecord)
      (duIn duOut : Option String),
      a.listAudioDevices .input = .ok lin →
      a.listAudioDevices .output = .ok lout →
      a.getDefaultAudioDeviceUid .input = .ok duIn →
      a.getDefaultAudioDeviceUid .output = .ok duOut →
      ∀ p s2, getDefaultAudioDevices a initState = .ok (p, s2) →
        p = serializeDefaults
          (((normalizeAudio IdTable.init lin duIn).1).filter
            (fun d => d.isDefault))
          (((normalizeAudio (normalizeAudio IdTable.init lin duIn).2
              lout duOut).1).filter (fun d => d.isDefault)) ∧
        (((normalizeAudio IdTable.init lin duIn).1).filter
          (fun d => d.isDefault)).length ≤ 1 ∧
        (((normalizeAudio (normalizeAudio IdTable.init lin duIn).2
            lout duOut).1).filter (fun d => d.isDefault)).length ≤ 1) := by
  refine ⟨normalizeAudio_filter_le_one, normalizeAudio_absent, ?_⟩
  intro a lin lout duIn duOut h1 h2 h3 h4 p s2 hp
  have e1 := getAudioSnapshot_uncached (a := a) (d := .input)
    (s := initState) rfl h1 h3
  have e2 := getAudioSnapshot_uncached (a := a) (d := .output)
    (s := storeAudio initState .input
      (normalizeAudio initState.audioTable lin duIn).1
      (normalizeAudio initState.audioTable lin duIn).2) rfl h2 h4
  unfold getDefaultAudioDevices at hp
  simp only [e1, e2] at hp
  have hinj := Except.ok.inj hp
  have hpe : p = serializeDefaults
      (((normalizeAudio initState.audioTable lin duIn).1).filter
        (fun d => d.isDefault))
      (((normalizeAudio (storeAudio initState .input
          (normalizeAudio initState.audioTable lin duIn).1
          (normalizeAudio initState.audioTable lin duIn).2).audioTable
          lout duOut).1).filter (fun d => d.isDefault)) :=
    (congrArg Prod.fst hinj).symm
  refine ⟨hpe, ?_, ?_⟩
  · exact normalizeAudio_filter_le_one _ _ _
  · exact normalizeAudio_filter_le_one _ _ _

/-- Witness for C2: a default uid absent from the record set marks nothing,
and the concrete `getDefaultAudioDevices` payload of `goodAdapter` carries at
most one default per direction. -/
theorem default_flag_unique_witness :
    (((normalizeAudio IdTable.init [⟨"Mic In", "mic-1", 2, 0, 44100⟩]
        (some "ghost-uid")).1).filter (fun d => d.isDefault) = []) ∧
    (gdPair.1 = serializeDefaults
        (((normalizeAudio IdTable.init [⟨"Mic In", "mic-1", 2, 0, 44100⟩]
            none).1).filter (fun d => d.isDefault))
        (((normalizeAudio
            (normalizeAudio IdTable.init
              [⟨"Mic In", "mic-1", 2, 0, 44100⟩] none).2
            [⟨"Builtin Out", "builtin-out", 0, 2, 48000⟩]
            (some "builtin-out")).1).filter (fun d => d.isDefault)) ∧
      (((normalizeAudio IdTable.init [⟨"Mic In", "mic-1", 2, 0, 44100⟩]
          none).1).filter (fun d => d.isDefault)).length ≤ 1 ∧
      (((normalizeAudio
          (normalizeAudio IdTable.init
            [⟨"Mic In", "mic-1", 2, 0, 44100⟩] none).2
          [⟨"Builtin Out", "builtin-out", 0, 2, 48000⟩]
          (some "builtin-out")).1).filter
            (fun d => d.isDefault)).length ≤ 1) :=
  ⟨default_flag_unique.2.1 IdTable.init
      [⟨"Mic In", "mic-1", 2, 0, 44100⟩] "ghost-uid" (by decide),
    default_flag_unique.2.2 goodAdapter
      [⟨"Mic In", "mic-1", 2, 0, 44100⟩]
      [⟨"Builtin Out", "builtin-out", 0, 2, 48000⟩]
      none (some "builtin-out") rfl rfl rfl rfl
      gdPair.1 gdPair.2 rfl⟩

/-- C3: the Normalizer's uid-to-stable-id table persists for the process
lifetime — a uid seen before is assigned its previous stable id and the
table is unchanged; a new uid receives the next unused integer from the
monotonic counter; a record whose uid is already in the table receives that
id on any later refresh; and a MIDI endpoint that disconnects (absent from
an intermediate refresh) and reconnects with the same uid receives the same
`endpointId` it held before. -/
theorem stable_id_persistence :
    (∀ (t : IdTable) (u : String) (i : Nat),
      t.lookup u = some i → t.assignId u = (i, t)) ∧
    (∀ (t : IdTable) (u : String),
      t.lookup u = none →
      t.assignId u = (t.nextId, ⟨t.assign ++ [(u, t.nextId)], t.nextId + 1⟩)) ∧
    (∀ (t : IdTable) (raws : List RawAudioRecord) (r : RawAudioRecord)
      (i : Nat), r ∈ raws → t.lookup r.uid = some i →
      (r, i) ∈ (assignIds RawAudioRecord.uid t raws).1) ∧
    (∀ (t : IdTable) (l1 l2 l3 : List RawMIDIRecord)
      (m1 : MIDIDeviceInfo) (r3 : RawMIDIRecord),
      m1 ∈ (normalizeMIDI t l1).1 → r3 ∈ l3 → r3.uid = m1.uid →
      MIDIDeviceInfo.mk r3.name r3.uid m1.endpointId r3.isOnline ∈
        (normalizeMIDI (normalizeMIDI (normalizeMIDI t l1).2 l2).2 l3).1) := by
  refine ⟨?_, ?_, ?_, ?_⟩
  · intro t u i h
    exact assignId_of_some h
  · intro t u h
    exact assignId_of_none h
  · intro t raws r i hr h
    exact assignIds_mem_of_lookup RawAudioRecord.uid hr h
  · intro t l1 l2 l3 m1 r3 h1 h3 hu
    have hl1 := normalizeMIDI_mem_lookup h1
    have hl2 := normalizeMIDI_preserves l2 hl1
    rw [← hu] at hl2
    exact normalizeMIDI_mem_of_lookup h3 hl2

/-- Witness for C3: a concrete endpoint gets id 1 on first sight, keeps its
table binding across a refresh that no longer lists it, and receives id 1
again when it reconnects. -/
theorem stable_id_persistence_witness :
    (IdTable.mk [("midi-keys", 1)] 2).assignId "midi-keys" =
      (1, IdTable.mk [("midi-keys", 1)] 2) ∧
    IdTable.init.assignId "midi-keys" = (1, ⟨[("midi-keys", 1)], 2⟩) ∧
    ((⟨"Mic In", "mic-1", 2, 0, 44100⟩ : RawAudioRecord), 1) ∈
      (assignIds RawAudioRecord.uid (IdTable.mk [("mic-1", 1)] 2)
        [⟨"Mic In", "mic-1", 2, 0, 44100⟩]).1 ∧
    MIDIDeviceInfo.mk "Keys" "midi-keys" 1 true ∈
      (normalizeMIDI (normalizeMIDI (normalizeMIDI IdTable.init
          [⟨"Keys", "midi-keys", true⟩]).2 []).2
        [⟨"Keys", "midi-keys", true⟩]).1 :=
  ⟨stable_id_persistence.1 (IdTable.mk [("midi-keys", 1)] 2) "midi-keys" 1
      (by decide),
    stable_id_persistence.2.1 IdTable.init "midi-keys" (by decide),
    stable_id_persistence.2.2.1 (IdTable.mk [("mic-1", 1)] 2)
      [⟨"Mic In", "mic-1", 2, 0, 44100⟩]
      ⟨"Mic In", "mic-1", 2, 0, 44100⟩ 1 (by decide) (by decide),
    stable_id_persistence.2.2.2 IdTable.init [⟨"Keys", "midi-keys", true⟩]
      [] [⟨"Keys", "midi-keys", true⟩]
      (MIDIDeviceInfo.mk "Keys" "midi-keys" 1 true)
      ⟨"Keys", "midi-keys", true⟩ (by decide) (by decide) rfl⟩

/-- C4: for every (class, direction), enumerating twice with no intervening
refresh trigger returns byte-identical payloads — the second call serves the
snapshot cached by the first and leaves the state untouched. -/
theorem enumerate_idempotent (a : Adapter) (i : Bool) (s s2 : CacheState)
    (p : String) :
    (enumerateAudioDevices a i s = .ok (p, s2) →
      enumerateAudioDevices a i s2 = .ok (p, s2)) ∧
    (enumerateMIDIDevices a i s = .ok (p, s2) →
      enumerateMIDIDevices a i s2 = .ok (p, s2)) := by
  constructor
  · intro h
    unfold enumerateAudioDevices at h ⊢
    cases hg : getAudioSnapshot a (dirOf i) s with
    | error e => rw [hg] at h; exact absurd h (by simp)
    | ok r =>
      rw [hg] at h
      have hr : (serializeAudioList r.1, r.2) = (p, s2) := by simpa using h
      have hp : serializeAudioList r.1 = p := congrArg Prod.fst hr
      have hs2 : r.2 = s2 := congrArg Prod.snd hr
      have hge : getAudioSnapshot a (dirOf i) s = .ok (r.1, r.2) := by
        rw [hg]
      have hcache : s2.audioSnap (dirOf i) = some r.1 := by
        rw [← hs2]
        exact getAudioSnapshot_stable hge
      rw [getAudioSnapshot_cached (a := a) hcache]
      simp [hp]
  · intro h
    unfold enumerateMIDIDevices at h ⊢
    cases hg : getMIDISnapshot a (dirOf i) s with
    | error e => rw [hg] at h; exact absurd h (by simp)
    | ok r =>
      rw [hg] at h
      have hr : (serializeMIDIList r.1, r.2) = (p, s2) := by simpa using h
      have hp : serializeMIDIList r.1 = p := congrArg Prod.fst hr
      have hs2 : r.2 = s2 := congrArg Prod.snd hr
      have hge : getMIDISnapshot a (dirOf i) s = .ok (r.1, r.2) := by
        rw [hg]
      have hcache : s2.midiSnap (dirOf i) = some r.1 := by
        rw [← hs2]
        exact getMIDISnapshot_stable hge
      rw [getMIDISnapshot_cached (a := a) hcache]
      simp [hp]

/-- Witness for C4: repeating the first-touch enumerations of `goodAdapter`
returns the identical payload and state. -/
theorem enumerate_idempotent_witness :
    enumerateAudioDevices goodAdapter true gaEnumPair.2 =
      .ok (gaEnumPair.1, gaEnumPair.2) ∧
    enumerateMIDIDevices goodAdapter true gmEnumPair.2 =
      .ok (gmEnumPair.1, gmEnumPair.2) :=
  ⟨(enumerate_idempotent goodAdapter true initState gaEnumPair.2
      gaEnumPair.1).1 rfl,
    (enumerate_idempotent goodAdapter true initState gmEnumPair.2
      gmEnumPair.1).2 rfl⟩

/-- C5: when the platform subsystem cannot be reached during a first-touch
query, every enumeration and count entry point reports the adapter error
itself — never an empty list or a zero count. -/
theorem adapter_failure_reported (a : Adapter) (e : AdapterError) (i : Bool)
    (s : CacheState) :
    (s.audioSnap (dirOf i) = none → a.listAudioDevices (dirOf i) = .error e →
      enumerateAudioDevices a i s = .error e ∧
      getAudioDeviceCount a i s = .error e) ∧
    (s.midiSnap (dirOf i) = none → a.listMIDIDevices (dirOf i) = .error e →
      enumerateMIDIDevices a i s = .error e ∧
      getMIDIDeviceCount a i s = .error e) ∧
    (s.audioSnap .input = none → a.listAudioDevices .input = .error e →
      getDefaultAudioDevices a s = .error e ∧
      enumerateAllDevices a s = .error e) := by
  refine ⟨?_, ?_, ?_⟩
  · intro hs hl
    have hg := getAudioSnapshot_err_list (a := a) hs hl
    constructor
    · unfold enumerateAudioDevices
      rw [hg]
    · unfold getAudioDeviceCount
      rw [hg]
  · intro hs hl
    have hg := getMIDISnapshot_err_list (a := a) hs hl
    constructor
    · unfold enumerateMIDIDevices
      rw [hg]
    · unfold getMIDIDeviceCount
      rw [hg]
  · intro hs hl
    have hg := getAudioSnapshot_err_list (a := a) hs hl
    constructor
    · unfold getDefaultAudioDevices
      rw [hg]
    · unfold enumerateAllDevices
      rw [hg]

/-- Witness for C5 at the unreachable platform: every entry point returns
`adapterUnavailable` from the initial state. -/
theorem adapter_failure_reported_witness :
    (enumerateAudioDevices brokenAdapter true initState =
        .error .adapterUnavailable ∧
      getAudioDeviceCount brokenAdapter true initState =
        .error .adapterUnavailable) ∧
    (enumerateMIDIDevices brokenAdapter true initState =
        .error .adapterUnavailable ∧
      getMIDIDeviceCount brokenAdapter true initState =
        .error .adapterUnavailable) ∧
    (getDefaultAudioDevices brokenAdapter initState =
        .error .adapterUnavailable ∧
      enumerateAllDevices brokenAdapter initState =
        .error .adapterUnavailable) :=
  ⟨(adapter_failure_reported brokenAdapter .adapterUnavailable true
      initState).1 rfl rfl,
    (adapter_failure_reported brokenAdapter .adapterUnavailable true
      initState).2.1 rfl rfl,
    (adapter_failure_reported brokenAdapter .adapterUnavailable true
      initState).2.2 rfl rfl⟩

/-- C6: with the platform reachable and zero audio output devices present,
`enumerateAudioOutputDevices()` returns the payload "\x7bdevices: []\x7d" and
`getAudioDeviceCount(isInput=false)` returns 0 — both as successes, not
errors. -/
theorem empty_output_is_success (a : Adapter) (s : CacheState)
    (du : Option String) (hs : s.audioSnap .output = none)
    (hl : a.listAudioDevices .output = .ok [])
    (hd : a.getDefaultAudioDeviceUid .output = .ok du) :
    enumerateAudioOutputDevices a s =
      .ok ("\x7bdevices: []\x7d", storeAudio s .output [] s.audioTable) ∧
    getAudioDeviceCount a false s =
      .ok (0, storeAudio s .output [] s.audioTable) := by
  have hg := getAudioSnapshot_uncached (a := a) hs hl hd
  constructor
  · unfold enumerateAudioOutputDevices enumerateAudioDevices
    simp only [dirOf, if_false, Bool.false_eq_true]
    rw [hg]
    rfl
  · unfold getAudioDeviceCount
    simp only [dirOf, if_false, Bool.false_eq_true]
    rw [hg]
    rfl

/-- Witness for C6: `emptyAdapter` (reachable, no devices) yields the empty
payload and count 0 from the initial state. -/
theorem empty_output_is_success_witness :
    enumerateAudioOutputDevices emptyAdapter initState =
      .ok ("\x7bdevices: []\x7d",
        storeAudio initState .output [] initState.audioTable) ∧
    getAudioDeviceCount emptyAdapter false initState =
      .ok (0, storeAudio initState .output [] initState.audioTable) :=
  empty_output_is_success emptyAdapter initState none rfl rfl rfl

theorem storeAudio_midiSnap (s : CacheState) (d : Direction)
    (l : List DeviceInfo) (t : IdTable) (d2 : Direction) :
    (storeAudio s d l t).midiSnap d2 = s.midiSnap d2 := by
  cases d <;> cases d2 <;> rfl

theorem storeMIDI_audioSnap (s : CacheState) (d : Direction)
    (l : List MIDIDeviceInfo) (t : IdTable) (d2 : Direction) :
    (storeMIDI s d l t).audioSnap d2 = s.audioSnap d2 := by
  cases d <;> cases d2 <;> rfl

theorem storeAudio_snap_other (s : CacheState) {d d2 : Direction}
    (l : List DeviceInfo) (t : IdTable) (h : d2 ≠ d) :
    (storeAudio s d l t).audioSnap d2 = s.audioSnap d2 := by
  cases d <;> cases d2 <;> first | rfl | exact absurd rfl h

theorem storeMIDI_snap_other (s : CacheState) {d d2 : Direction}
    (l : List MIDIDeviceInfo) (t : IdTable) (h : d2 ≠ d) :
    (storeMIDI s d l t).midiSnap d2 = s.midiSnap d2 := by
  cases d <;> cases d2 <;> first | rfl | exact absurd rfl h

theorem getAudioSnapshot_keeps_audio {a : Adapter} {d : Direction}
    {s s2 : CacheState} {l : List DeviceInfo}
    (h : getAudioSnapshot a d s = .ok (l, s2)) {d2 : Direction}
    {l2 : List DeviceInfo} (h2 : s.audioSnap d2 = some l2) :
    s2.audioSnap d2 = some l2 := by
  unfold getAudioSnapshot refreshAudio at h
  cases hs : s.audioSnap d with
  | some l0 =>
    rw [hs] at h
    have hse : s = s2 := congrArg Prod.snd (Except.ok.inj h)
    rw [← hse]
    exact h2
  | none =>
    rw [hs] at h
    by_cases hd : d2 = d
    · rw [hd] at h2
      rw [h2] at hs
      exact absurd hs (by simp)
    · cases hl : a.listAudioDevices d with
      | error e => rw [hl] at h; exact absurd h (by simp)
      | ok raws =>
        rw [hl] at h
        cases hdu : a.getDefaultAudioDeviceUid d with
        | error e => rw [hdu] at h; exact absurd h (by simp)
        | ok du =>
          rw [hdu] at h
          have hse := congrArg Prod.snd (Except.ok.inj h)
          simp only at hse
          rw [← hse, storeAudio_snap_other s _ _ hd]
          exact h2

theorem getMIDISnapshot_keeps_midi {a : Adapter} {d : Direction}
    {s s2 : CacheState} {l : List MIDIDeviceInfo}
    (h : getMIDISnapshot a d s = .ok (l, s2)) {d2 : Direction}
    {l2 : List MIDIDeviceInfo} (h2 : s.midiSnap d2 = some l2) :
    s2.midiSnap d2 = some l2 := by
  unfold getMIDISnapshot refreshMIDI at h
  cases hs : s.midiSnap d with
  | some l0 =>
    rw [hs] at h
    have hse : s = s2 := congrArg Prod.snd (Except.ok.inj h)
    rw [← hse]
    exact h2
  | none =>
    rw [hs] at h
    by_cases hd : d2 = d
    · rw [hd] at h2
      rw [h2] at hs
      exact absurd hs (by simp)
    · cases hl : a.listMIDIDevices d with
      | error e => rw [hl] at h; exact absurd h (by simp)
      | ok raws =>
        rw [hl] at h
        have hse := congrArg Prod.snd (Except.ok.inj h)
        simp only at hse
        rw [← hse, storeMIDI_snap_other s _ _ hd]
        exact h2

theorem getAudioSnapshot_keeps_midi {a : Adapter} {d : Direction}
    {s s2 : CacheState} {l : List DeviceInfo}
    (h : getAudioSnapshot a d s = .ok (l, s2)) (d2 : Direction) :
    s2.midiSnap d2 = s.midiSnap d2 := by
  unfold getAudioSnapshot refreshAudio at h
  cases hs : s.audioSnap d with
  | some l0 =>
    rw [hs] at h
    have hse : s = s2 := congrArg Prod.snd (Except.ok.inj h)
    rw [← hse]
  | none =>
    rw [hs] at h
    cases hl : a.listAudioDevices d with
    | error e => rw [hl] at h; exact absurd h (by simp)
    | ok raws =>
      rw [hl] at h
      cases hdu : a.getDefaultAudioDeviceUid d with
      | error e => rw [hdu] at h; exact absurd h (by simp)
      | ok du =>
        rw [hdu] at h
        have hse := congrArg Prod.snd (Except.ok.inj h)
        simp only at hse
        rw [← hse, storeAudio_midiSnap]

theorem getMIDISnapshot_keeps_audio {a : Adapter} {d : Direction}
    {s s2 : CacheState} {l : List MIDIDeviceInfo}
    (h : getMIDISnapshot a d s = .ok (l, s2)) (d2 : Direction) :
    s2.audioSnap d2 = s.audioSnap d2 := by
  unfold getMIDISnapshot refreshMIDI at h
  cases hs : s.midiSnap d with
  | some l0 =>
    rw [hs] at h
    have hse : s = s2 := congrArg Prod.snd (Except.ok.inj h)
    rw [← hse]
  | none =>
    rw [hs] at h
    cases hl : a.listMIDIDevices d with
    | error e => rw [hl] at h; exact absurd h (by simp)
    | ok raws =>
      rw [hl] at h
      have hse := congrArg Prod.snd (Except.ok.inj h)
      simp only at hse
      rw [← hse, storeMIDI_audioSnap]

theorem enumerateAll_stable {a : Adapter} {s s2 : CacheState} {p : String}
    (h : enumerateAllDevices a s = .ok (p, s2)) :
    enumerateAllDevices a s2 = .ok (p, s2) := by
  unfold enumerateAllDevices at h ⊢
  cases hg1 : getAudioSnapshot a .input s with
  | error e => rw [hg1] at h; exact absurd h (by simp)
  | ok r1 =>
    simp only [hg1] at h
    cases hg2 : getAudioSnapshot a .output r1.2 with
    | error e => simp only [hg2] at h; exact absurd h (by simp)
    | ok r2 =>
      simp only [hg2] at h
      cases hg3 : getMIDISnapshot a .input r2.2 with
      | error e => simp only [hg3] at h; exact absurd h (by simp)
      | ok r3 =>
        simp only [hg3] at h
        cases hg4 : getMIDISnapshot a .output r3.2 with
        | error e => simp only [hg4] at h; exact absurd h (by simp)
        | ok r4 =>
          simp only [hg4] at h
          have hinj := Except.ok.inj h
          have hps : serializeAll r1.1 r2.1 r3.1 r4.1 = p :=
            congrArg Prod.fst hinj
          have hs4 : r4.2 = s2 := congrArg Prod.snd hinj
          have hg1e : getAudioSnapshot a .input s = .ok (r1.1, r1.2) := by
            rw [hg1]
          have hg2e : getAudioSnapshot a .output r1.2 = .ok (r2.1, r2.2) := by
            rw [hg2]
          have hg3e : getMIDISnapshot a .input r2.2 = .ok (r3.1, r3.2) := by
            rw [hg3]
          have hg4e : getMIDISnapshot a .output r3.2 = .ok (r4.1, r4.2) := by
            rw [hg4]
          have f1 : s2.audioSnap .input = some r1.1 := by
            rw [← hs4]
            rw [getMIDISnapshot_keeps_audio hg4e,
              getMIDISnapshot_keeps_audio hg3e]
            exact getAudioSnapshot_keeps_audio hg2e
              (getAudioSnapshot_stable hg1e)
          have f2 : s2.audioSnap .output = some r2.1 := by
            rw [← hs4]
            rw [getMIDISnapshot_keeps_audio hg4e,
              getMIDISnapshot_keeps_audio hg3e]
            exact getAudioSnapshot_stable hg2e
          have f3 : s2.midiSnap .input = some r3.1 := by
            rw [← hs4]
            exact getMIDISnapshot_keeps_midi hg4e
              (getMIDISnapshot_stable hg3e)
          have f4 : s2.midiSnap .output = some r4.1 := by
            rw [← hs4]
            exact getMIDISnapshot_stable hg4e
          simp only [getAudioSnapshot_cached (a := a) f1,
            getAudioSnapshot_cached (a := a) f2,
            getMIDISnapshot_cached (a := a) f3,
            getMIDISnapshot_cached (a := a) f4, hps]

theorem enumerateAll_from_empty (a : Adapter) (tA tM : IdTable)
    (lin lout : List RawAudioRecord) (duIn duOut : Option String)
    (m1 m2 : List RawMIDIRecord)
    (h1 : a.listAudioDevices .input = .ok lin)
    (h2 : a.listAudioDevices .output = .ok lout)
    (h3 : a.getDefaultAudioDeviceUid .input = .ok duIn)
    (h4 : a.getDefaultAudioDeviceUid .output = .ok duOut)
    (h5 : a.listMIDIDevices .input = .ok m1)
    (h6 : a.listMIDIDevices .output = .ok m2) :
    enumerateAllDevices a ⟨tA, tM, none, none, none, none⟩ =
      .ok (serializeAll (normalizeAudio tA lin duIn).1
          (normalizeAudio (normalizeAudio tA lin duIn).2 lout duOut).1
          (normalizeMIDI tM m1).1
          (normalizeMIDI (normalizeMIDI tM m1).2 m2).1,
        ⟨(normalizeAudio (normalizeAudio tA lin duIn).2 lout duOut).2,
          (normalizeMIDI (normalizeMIDI tM m1).2 m2).2,
          some (normalizeAudio tA lin duIn).1,
          some (normalizeAudio (normalizeAudio tA lin duIn).2 lout duOut).1,
          some (normalizeMIDI tM m1).1,
          some (normalizeMIDI (normalizeMIDI tM m1).2 m2).1⟩) := by
  unfold enumerateAllDevices getAudioSnapshot getMIDISnapshot refreshAudio
    refreshMIDI
  simp only [CacheState.audioSnap, CacheState.midiSnap, storeAudio, storeMIDI,
    h1, h2, h3, h4, h5, h6]

/-- C7: within a single `enumerateAllDevices()` call from the initial state,
`deviceId` values are unique across the `audioInput` and `audioOutput`
collections (given that the platform reports distinct uids across the two
direction lists), and a second call with no device change in between serves
a byte-identical payload, so every `deviceId` is identical across the two
calls. -/
theorem unique_stable_deviceIds (a : Adapter)
    (lin lout : List RawAudioRecord) (duIn duOut : Option String)
    (m1 m2 : List RawMIDIRecord)
    (h1 : a.listAudioDevices .input = .ok lin)
    (h2 : a.listAudioDevices .output = .ok lout)
    (h3 : a.getDefaultAudioDeviceUid .input = .ok duIn)
    (h4 : a.getDefaultAudioDeviceUid .output = .ok duOut)
    (h5 : a.listMIDIDevices .input = .ok m1)
    (h6 : a.listMIDIDevices .output = .ok m2)
    (hnd : ((lin ++ lout).map RawAudioRecord.uid).Nodup) :
    ∀ p s2, enumerateAllDevices a initState = .ok (p, s2) →
      p = serializeAll (normalizeAudio IdTable.init lin duIn).1
          (normalizeAudio (normalizeAudio IdTable.init lin duIn).2
            lout duOut).1
          (normalizeMIDI IdTable.init m1).1
          (normalizeMIDI (normalizeMIDI IdTable.init m1).2 m2).1 ∧
      (((normalizeAudio IdTable.init lin duIn).1 ++
          (normalizeAudio (normalizeAudio IdTable.init lin duIn).2
            lout duOut).1).map DeviceInfo.deviceId).Nodup ∧
      enumerateAllDevices a s2 = .ok (p, s2) := by
  intro p s2 hp
  have hp0 := hp
  have hcomp := enumerateAll_from_empty a IdTable.init IdTable.init
    lin lout duIn duOut m1 m2 h1 h2 h3 h4 h5 h6
  rw [show initState = (⟨IdTable.init, IdTable.init, none, none, none,
    none⟩ : CacheState) from rfl] at hp
  rw [hcomp] at hp
  have hinj := Except.ok.inj hp
  refine ⟨(congrArg Prod.fst hinj).symm, ?_, enumerateAll_stable hp0⟩
  rw [List.map_append, normalizeAudio_map_deviceId,
    normalizeAudio_map_deviceId, ← List.map_append]
  exact assignIds_pair_nodup RawAudioRecord.uid initTable_WF lin lout hnd

/-- Witness for C7: the concrete first `enumerateAllDevices` call against
`goodAdapter` serializes the four normalized collections, its audio
`deviceId`s are pairwise distinct, and the second call is byte-identical. -/
theorem unique_stable_deviceIds_witness :
    gAllPair.1 = serializeAll
        (normalizeAudio IdTable.init
          [⟨"Mic In", "mic-1", 2, 0, 44100⟩] none).1
        (normalizeAudio (normalizeAudio IdTable.init
            [⟨"Mic In", "mic-1", 2, 0, 44100⟩] none).2
          [⟨"Builtin Out", "builtin-out", 0, 2, 48000⟩]
          (some "builtin-out")).1
        (normalizeMIDI IdTable.init [⟨"Keys", "midi-keys", true⟩]).1
        (normalizeMIDI (normalizeMIDI IdTable.init
            [⟨"Keys", "midi-keys", true⟩]).2 []).1 ∧
    (((normalizeAudio IdTable.init
        [⟨"Mic In", "mic-1", 2, 0, 44100⟩] none).1 ++
        (normalizeAudio (normalizeAudio IdTable.init
            [⟨"Mic In", "mic-1", 2, 0, 44100⟩] none).2
          [⟨"Builtin Out", "builtin-out", 0, 2, 48000⟩]
          (some "builtin-out")).1).map DeviceInfo.deviceId).Nodup ∧
    enumerateAllDevices goodAdapter gAllPair.2 =
      .ok (gAllPair.1, gAllPair.2) :=
  unique_stable_deviceIds goodAdapter
    [⟨"Mic In", "mic-1", 2, 0, 44100⟩]
    [⟨"Builtin Out", "builtin-out", 0, 2, 48000⟩]
    none (some "builtin-out")
    [⟨"Keys", "midi-keys", true⟩] []
    rfl rfl rfl rfl rfl rfl (by decide)
    gAllPair.1 gAllPair.2 rfl

/-- C8: `getDefaultSampleRate()` returns the native nominal rate of the
device that the platform reports as default output (cross-referenced against
the output device list), and returns the 0 sentinel whenever no default
output device is resolvable (no reported default, or the reported uid absent
from the list, or the adapter unreachable). -/
theorem default_sample_rate (a : Adapter) (u : String)
    (raws : List RawAudioRecord) (r : RawAudioRecord) :
    (a.getDefaultAudioDeviceUid .output = .ok (some u) →
      a.listAudioDevices .output = .ok raws →
      raws.find? (fun x => x.uid == u) = some r →
      getDefaultSampleRate a = r.nominalSampleRate) ∧
    (a.getDefaultAudioDeviceUid .output = .ok none →
      getDefaultSampleRate a = 0) ∧
    (a.getDefaultAudioDeviceUid .output = .ok (some u) →
      a.listAudioDevices .output = .ok raws →
      raws.find? (fun x => x.uid == u) = none →
      getDefaultSampleRate a = 0) ∧
    (∀ e : AdapterError, a.getDefaultAudioDeviceUid .output = .error e →
      getDefaultSampleRate a = 0) := by
  refine ⟨?_, ?_, ?_, ?_⟩
  · intro hd hl hf
    unfold getDefaultSampleRate
    simp only [hd, hl, hf]
  · intro hd
    unfold getDefaultSampleRate
    simp only [hd]
  · intro hd hl hf
    unfold getDefaultSampleRate
    simp only [hd, hl, hf]
  · intro e hd
    unfold getDefaultSampleRate
    simp only [hd]

/-- Witness for C8: with `goodAdapter` (default output "builtin-out" whose
native rate is 48000) the facade reports 48000; with `emptyAdapter` (no
default) it reports the 0 sentinel; with `brokenAdapter` it reports 0. -/
theorem default_sample_rate_witness :
    getDefaultSampleRate goodAdapter = 48000 ∧
    getDefaultSampleRate emptyAdapter = 0 ∧
    getDefaultSampleRate brokenAdapter = 0 :=
  ⟨(default_sample_rate goodAdapter "builtin-out"
      [⟨"Builtin Out", "builtin-out", 0, 2, 48000⟩]
      ⟨"Builtin Out", "builtin-out", 0, 2, 48000⟩).1 rfl rfl (by decide),
    (default_sample_rate emptyAdapter "" [] ⟨"", "", 0, 0, 0⟩).2.1 rfl,
    (default_sample_rate brokenAdapter "" [] ⟨"", "", 0, 0, 0⟩).2.2.2
      .adapterUnavailable rfl⟩

theorem takeWhile_lt_of_mem_zero :
    ∀ (l : List Nat), 0 ∈ l →
      (l.takeWhile (fun b => b != 0)).length < l.length := by
  intro l
  induction l with
  | nil => intro h; exact absurd h (by simp)
  | cons a l ih =>
    intro h
    by_cases ha : a = 0
    · subst ha
      simp [List.takeWhile]
    · have h0 : 0 ∈ l := by
        rcases List.mem_cons.mp h with h1 | h2
        · exact absurd h1.symm ha
        · exact h2
      have hb : (a != 0) = true := by simpa using ha
      simp only [List.takeWhile, hb, List.length_cons]
      exact Nat.succ_lt_succ (ih h0)

/-- C10: every `name` and `uid` field of the C structs `AudioDeviceInfo` and
`MIDIDeviceInfo` lives in a fixed 256-byte NUL-terminated buffer, so the
represented string can never exceed 255 characters. -/
theorem fixed_buffer_bound (d : CModel.AudioDeviceInfo)
    (m : CModel.MIDIDeviceInfo) :
    (d.name.toStr).length ≤ 255 ∧ (d.uid.toStr).length ≤ 255 ∧
    (m.name.toStr).length ≤ 255 ∧ (m.uid.toStr).length ≤ 255 := by
  refine ⟨?_, ?_, ?_, ?_⟩ <;>
    · unfold CModel.CString256.toStr
      first
        | (have h := takeWhile_lt_of_mem_zero d.name.bytes d.name.terminated
           rw [d.name.size_eq] at h
           omega)
        | (have h := takeWhile_lt_of_mem_zero d.uid.bytes d.uid.terminated
           rw [d.uid.size_eq] at h
           omega)
        | (have h := takeWhile_lt_of_mem_zero m.name.bytes m.name.terminated
           rw [m.name.size_eq] at h
           omega)
        | (have h := takeWhile_lt_of_mem_zero m.uid.bytes m.uid.terminated
           rw [m.uid.size_eq] at h
           omega)
